import Mathlib

/-!
Shallow embedding of the Voxel-Castle terrain/chunk subsystem
(`src/voxel_fortress/src/terrain.rs`, `chunk.rs`, `chunk_loading.rs`).

Numeric conventions of the embedding:
* `f32`/`f64` arithmetic is modelled by exact rational arithmetic (`ℚ`).
  Every comparison the claims depend on is either purely structural or is
  far from any rounding boundary, so the exact model is faithful.
* The `noise` crate's Perlin / RidgedMulti generators and the `f64::powf`
  intrinsic are external libraries, not part of this repository; they are
  pure deterministic functions of their inputs, and are carried as
  function-valued fields of the embedded `WorldGen` record.
* Distances computed in the source as `((dx*dx+dy*dy+dz*dz) as f32).sqrt()`
  and compared against the radii 2.5, 5.0, 8.0 and `r` are modelled by the
  equivalent integer comparisons of the squared distance against 6, 25, 64
  and `r*r` (the integer squared distance is never close enough to a
  threshold square for `f32` rounding of the square root to flip the
  comparison: the relevant integer thresholds are 6/7 vs 6.25, 25/26 vs 25,
  64/65 vs 64, r²/r²+1 vs r²).
-/

/- Batteries marks the `Rat` arithmetic operations `@[irreducible]`, which
blocks `decide`-style evaluation of the rational computations below.  The
embedding relies on evaluating them, so restore the default reducibility. -/
set_option allowUnsafeReducibility true
attribute [semireducible] Rat.add Rat.sub Rat.mul Rat.div Rat.neg Rat.inv Rat.blt

namespace VoxelCastle

/-- Constant `CHUNK_SIZE` from terrain.rs. -/
def CHUNK_SIZE : ℕ := 32

/-- Constant `VOXEL_SIZE_METERS` from terrain.rs (0.25). -/
def VOXEL_SIZE_METERS : ℚ := 1/4

/-- Constant `ACTIVE_RADIUS` from chunk.rs (2.5). -/
def ACTIVE_RADIUS : ℚ := 5/2

/-- Constant `LOD_RADIUS` from chunk.rs (5.0). -/
def LOD_RADIUS : ℚ := 5

/-- Constant `UNLOAD_RADIUS` from chunk.rs (8.0). -/
def UNLOAD_RADIUS : ℚ := 8

/-- The `Voxel` enum from terrain.rs. -/
inductive Voxel where
  | Air
  | Solid
  | Stone
  | Dirt
  | Grass
  | Sand
  | Forest
  | Plains
  | Taiga
  | Desert
  | Snow
deriving DecidableEq, Repr

/-- The `ChunkLodState` enum from terrain.rs (identical to `ChunkState` in
chunk.rs; the store uses `ChunkState`). -/
inductive ChunkState where
  | Active
  | LOD
  | Unloaded
deriving DecidableEq, Repr

/-- The `WorldGen` struct from terrain.rs.  The seven noise generators are
values of the external `noise` crate (`Perlin`, `RidgedMulti<Perlin>`)
constructed from the seed; being external pure functions they are embedded
as function fields.  `detail_noise` is sampled both in 2D (hills) and in 3D
(small details), so it appears as two function fields.  `powf` models the
`f64::powf` intrinsic used on the mountain mask. -/
structure WorldGen where
  levels : ℕ
  chunk_size : ℕ
  seed : ℕ
  base_noise : ℚ → ℚ → ℚ
  ridged_noise : ℚ → ℚ → ℚ
  mountain_noise : ℚ → ℚ → ℚ
  detail_noise2 : ℚ → ℚ → ℚ
  detail_noise3 : ℚ → ℚ → ℚ → ℚ
  cave_noise : ℚ → ℚ → ℚ → ℚ
  warp_x_noise : ℚ → ℚ → ℚ
  warp_z_noise : ℚ → ℚ → ℚ
  powf : ℚ → ℚ → ℚ

namespace WorldGen

/-- Function `WorldGen::get_height` from terrain.rs. -/
def get_height (w : WorldGen) (x z : ℚ) : ℚ :=
  let warp_scale : ℚ := 1/1000
  let warp_strength : ℚ := 150
  let warp_x := w.warp_x_noise (x * warp_scale) (z * warp_scale) * warp_strength
  let warp_z := w.warp_z_noise (x * warp_scale + 1000) (z * warp_scale + 1000) * warp_strength
  let nx := x + warp_x
  let nz := z + warp_z
  let continent_scale : ℚ := 25/100000
  let continent := w.base_noise (nx * continent_scale) (nz * continent_scale)
  let continent_height := (continent * (1/2) + 1/2) * 100
  let mountain_scale : ℚ := 1/1000
  let mountains := w.mountain_noise (nx * mountain_scale) (nz * mountain_scale)
  let mountains_mask := min (max (mountains + 1/10) 0) 1
  let mountain_height := w.ridged_noise (nx * mountain_scale * 2) (nz * mountain_scale * 2) * 120
  let hills_scale : ℚ := 3/1000
  let hills := w.detail_noise2 (nx * hills_scale) (nz * hills_scale) * 25
  let base_terrain := continent_height
  let mountains_contribution := mountain_height * w.powf mountains_mask (3/2)
  base_terrain + mountains_contribution + hills

/-- Function `WorldGen::get_density` from terrain.rs. -/
def get_density (w : WorldGen) (x y z surface_height : ℚ) : ℚ :=
  let depth := surface_height - y
  let surface_density := if 0 < depth then depth / 5 else -1
  let cave_scale : ℚ := 3/100
  let cave_threshold : ℚ := 6/10
  let cave_noise_val := w.cave_noise (x * cave_scale) (y * cave_scale) (z * cave_scale)
  let cave_carver : ℚ :=
    if 10 < depth ∧ depth < 80 then
      if cave_threshold < cave_noise_val then -1 else 0
    else 0
  let detail_scale : ℚ := 4/100
  let small_detail := w.detail_noise3 (x * detail_scale) (y * detail_scale) (z * detail_scale) * (1/10)
  surface_density + cave_carver + small_detail

/-- The `match (temp, rain)` classification of `WorldGen::get_biome`: an
ordered guard chain, first match wins (hot ⇒ temperate ⇒ cold ⇒ very
cold). -/
def classifyBiome (temp rain : ℚ) : ℕ :=
  if 7/10 < temp ∧ 7/10 < rain then 0
  else if 7/10 < temp ∧ 3/10 < rain then 1
  else if 7/10 < temp then 3
  else if 4/10 < temp ∧ 6/10 < rain then 0
  else if 4/10 < temp ∧ 3/10 < rain then 1
  else if 4/10 < temp then 3
  else if 2/10 < temp ∧ 5/10 < rain then 2
  else if 2/10 < temp then 1
  else 2

/-- Function `WorldGen::get_biome` from terrain.rs: the temperature and rainfall
signals followed by the ordered classification above. -/
def get_biome (w : WorldGen) (x z : ℚ) : ℕ :=
  let temp_scale : ℚ := 7/10000
  let rain_scale : ℚ := 5/10000
  let equator_influence := 1 - min |z * (1/10000)| 1
  let temp := equator_influence * (7/10) +
    w.base_noise (x * temp_scale) (2000 + z * temp_scale) * (3/10)
  let rain_x := x + w.warp_x_noise (x * rain_scale * (1/2)) (z * rain_scale * (1/2)) * 200
  let rain_z := z + w.warp_z_noise (x * rain_scale * (1/2) + 500) (z * rain_scale * (1/2) + 500) * 200
  let rain := w.base_noise (rain_x * rain_scale + 5000) (rain_z * rain_scale + 5000)
  classifyBiome temp rain

end WorldGen

/-- The `Chunk` struct from terrain.rs: a dense `32³` voxel grid plus an
LOD-state tag. -/
structure Chunk where
  voxels : Fin 32 → Fin 32 → Fin 32 → Voxel
  lod_state : ChunkState

namespace Chunk

/-- Constructor `Chunk::new_filled` from terrain.rs. -/
def new_filled (v : Voxel) : Chunk :=
  { voxels := fun _ _ _ => v, lod_state := ChunkState.Active }

end Chunk

/-- The biome-to-material `match biome` arms of `Chunk::from_worldgen`
(0 ⇒ Forest, 1 ⇒ Plains, 2 ⇒ Taiga, 3 ⇒ Desert, `_` ⇒ Stone). -/
def biomeVoxel : ℕ → Voxel
  | 0 => Voxel.Forest
  | 1 => Voxel.Plains
  | 2 => Voxel.Taiga
  | 3 => Voxel.Desert
  | _ => Voxel.Stone

/-- The world coordinate of local cell index `i` inside the chunk with
chunk-space coordinate `c` (`base = chunk_pos * CHUNK_SIZE` plus the local
index, as computed in `Chunk::from_worldgen`). -/
def worldCoord (c : ℤ) (i : ℕ) : ℤ := c * (CHUNK_SIZE : ℤ) + (i : ℤ)

/-- The value written into cell `(x, y, z)` by the loop body of
`Chunk::from_worldgen` for chunk position `pos`: the underwater branch
(`world_y < water_level` with `water_level = 0`) uses the simple
height comparison, the branch at or above water uses the 3D density
function (the cell stays `Air`, its `new_filled` initial value, when the
density is not positive).  Surface height and biome depend only on the
`(x, z)` column, as in the source. -/
def worldgenVoxel (w : WorldGen) (pos : ℤ × ℤ × ℤ) (x y z : ℕ) : Voxel :=
  let wx := worldCoord pos.1 x
  let wz := worldCoord pos.2.2 z
  let wy := worldCoord pos.2.1 y
  let surface_height := w.get_height (wx : ℚ) (wz : ℚ)
  let biome := w.get_biome (wx : ℚ) (wz : ℚ)
  let world_y : ℚ := (wy : ℚ)
  let water_level : ℚ := 0
  if world_y < water_level then
    if world_y < surface_height then Voxel.Solid else Voxel.Air
  else
    let density := w.get_density (wx : ℚ) world_y (wz : ℚ) surface_height
    if 0 < density then biomeVoxel biome else Voxel.Air

/-- Function `Chunk::from_worldgen` from terrain.rs. -/
def Chunk.from_worldgen (w : WorldGen) (pos : ℤ × ℤ × ℤ) : Chunk :=
  { voxels := fun x y z => worldgenVoxel w pos x y z,
    lod_state := ChunkState.Active }

/-- A concrete `WorldGen` instance whose noise generators all return `0`
(and whose `powf` model returns `0`); used for the concrete-input
theorems. -/
def zeroWG : WorldGen :=
  { levels := 3, chunk_size := 32, seed := 42,
    base_noise := fun _ _ => 0,
    ridged_noise := fun _ _ => 0,
    mountain_noise := fun _ _ => 0,
    detail_noise2 := fun _ _ => 0,
    detail_noise3 := fun _ _ _ => 0,
    cave_noise := fun _ _ _ => 0,
    warp_x_noise := fun _ _ => 0,
    warp_z_noise := fun _ _ => 0,
    powf := fun _ _ => 0 }

/-! ## Mesh extraction (`Chunk::to_mesh`, `Chunk::to_lod_mesh`, `face_mesh`) -/

/-- The face-type tags, `"side"` / `"bottom"` / `"top"` strings in the
source. -/
inductive FaceKind where
  | side
  | bottom
  | top
deriving DecidableEq, Repr

/-- The 6-entry face-direction array iterated by `Chunk::to_mesh`:
`(dx, dy, dz, normal, face_type)`, in source order. -/
def faceDirs : List ((ℤ × ℤ × ℤ) × (ℚ × ℚ × ℚ) × FaceKind) :=
  [ ((0, 0, -1), ((0, 0, -1) : ℚ × ℚ × ℚ), FaceKind.side),
    ((0, 0, 1), (0, 0, 1), FaceKind.side),
    ((0, -1, 0), (0, -1, 0), FaceKind.bottom),
    ((0, 1, 0), (0, 1, 0), FaceKind.top),
    ((-1, 0, 0), (-1, 0, 0), FaceKind.side),
    ((1, 0, 0), (1, 0, 0), FaceKind.side) ]

/-- Function `face_mesh` from terrain.rs: the 4 vertices, 4 normals and 6 indices of
a quad at `base` with the given `normal` (the source's `match` on the
normal components becomes a chain of tuple comparisons; the source's
`unreachable!` default arm, never hit from `faceDirs`, becomes empty
lists). -/
def face_mesh (base : ℚ × ℚ × ℚ) (normal : ℚ × ℚ × ℚ) (i : ℕ) :
    List (ℚ × ℚ × ℚ) × List (ℚ × ℚ × ℚ) × List ℕ :=
  let size := VOXEL_SIZE_METERS
  let bx := base.1
  let b2 := base.2.1
  let bz := base.2.2
  let norms := [normal, normal, normal, normal]
  if normal = (0, 0, -1) then
    ([(bx, b2, bz), (bx + size, b2, bz), (bx + size, b2 + size, bz), (bx, b2 + size, bz)],
      norms, [i, i + 1, i + 2, i, i + 2, i + 3])
  else if normal = (0, 0, 1) then
    ([(bx, b2, bz + size), (bx + size, b2, bz + size), (bx + size, b2 + size, bz + size),
      (bx, b2 + size, bz + size)],
      norms, [i, i + 2, i + 1, i, i + 3, i + 2])
  else if normal = (0, -1, 0) then
    ([(bx, b2, bz), (bx + size, b2, bz), (bx + size, b2, bz + size), (bx, b2, bz + size)],
      norms, [i, i + 1, i + 2, i, i + 2, i + 3])
  else if normal = (0, 1, 0) then
    ([(bx, b2 + size, bz), (bx, b2 + size, bz + size), (bx + size, b2 + size, bz + size),
      (bx + size, b2 + size, bz)],
      norms, [i, i + 1, i + 2, i, i + 2, i + 3])
  else if normal = (-1, 0, 0) then
    ([(bx, b2, bz), (bx, b2 + size, bz), (bx, b2 + size, bz + size), (bx, b2, bz + size)],
      norms, [i, i + 1, i + 2, i, i + 2, i + 3])
  else if normal = (1, 0, 0) then
    ([(bx + size, b2, bz), (bx + size, b2, bz + size), (bx + size, b2 + size, bz + size),
      (bx + size, b2 + size, bz)],
      norms, [i, i + 1, i + 2, i, i + 2, i + 3])
  else ([], [], [])

/-- The per-face color selection of `Chunk::to_mesh` (the `match
self.voxels[x][y][z]` expression, with the `above` voxel and the vertical
gradient parameter `t` used by the legacy default arm). -/
def faceColor (v : Voxel) (face_type : FaceKind) (above : Voxel) (t : ℚ) :
    ℚ × ℚ × ℚ × ℚ :=
  let stone_color : ℚ × ℚ × ℚ × ℚ := (1/2, 1/2, 1/2, 1)
  let dirt_color : ℚ × ℚ × ℚ × ℚ := (45/100, 32/100, 18/100, 1)
  let grass_side_color : ℚ × ℚ × ℚ × ℚ := (45/100, 32/100, 18/100, 1)
  let grass_top_color : ℚ × ℚ × ℚ × ℚ := (2/10, 8/10, 2/10, 1)
  let sand_color : ℚ × ℚ × ℚ × ℚ := (76/100, 7/10, 1/2, 1)
  let forest_color : ℚ × ℚ × ℚ × ℚ := (15/100, 6/10, 15/100, 1)
  let plains_color : ℚ × ℚ × ℚ × ℚ := (3/10, 65/100, 3/10, 1)
  let taiga_color : ℚ × ℚ × ℚ × ℚ := (2/10, 1/2, 4/10, 1)
  let desert_color : ℚ × ℚ × ℚ × ℚ := (85/100, 75/100, 1/2, 1)
  let snow_color : ℚ × ℚ × ℚ × ℚ := (9/10, 9/10, 95/100, 1)
  match v with
  | Voxel.Stone => stone_color
  | Voxel.Dirt => dirt_color
  | Voxel.Grass =>
      (match face_type with
       | FaceKind.top => grass_top_color
       | _ => grass_side_color)
  | Voxel.Sand => sand_color
  | Voxel.Forest =>
      (match face_type with
       | FaceKind.top => forest_color
       | _ => dirt_color)
  | Voxel.Plains =>
      (match face_type with
       | FaceKind.top => plains_color
       | _ => dirt_color)
  | Voxel.Taiga =>
      (match face_type with
       | FaceKind.top => taiga_color
       | _ => dirt_color)
  | Voxel.Desert => desert_color
  | Voxel.Snow => snow_color
  | _ =>
      -- default arm for `Solid` (and `Air`, which the caller filters out)
      let brown : ℚ × ℚ × ℚ × ℚ := (45/100, 32/100, 18/100, 1)
      let green : ℚ × ℚ × ℚ × ℚ := (2/10, 8/10, 2/10, 1)
      match face_type with
      | FaceKind.top => if above = Voxel.Air then green else brown
      | FaceKind.side =>
          (brown.1 * (1 - t) + green.1 * t,
           brown.2.1 * (1 - t) + green.2.1 * t,
           brown.2.2.1 * (1 - t) + green.2.2.1 * t,
           1)
      | FaceKind.bottom => brown

/-- The neighbor lookup of `Chunk::to_mesh`: indices outside the `32³` grid
yield `Air` (no cross-chunk lookahead). -/
def Chunk.neighborVoxel (c : Chunk) (nx ny nz : ℤ) : Voxel :=
  if h : nx < 0 ∨ ny < 0 ∨ nz < 0 ∨ 32 ≤ nx ∨ 32 ≤ ny ∨ 32 ≤ nz then Voxel.Air
  else
    c.voxels ⟨nx.toNat, by omega⟩ ⟨ny.toNat, by omega⟩ ⟨nz.toNat, by omega⟩

/-- The mesh attribute arrays a `Chunk` mesher produces (the Bevy `Mesh`
attributes actually written by the source: positions, normals, colors,
UVs and triangle indices). -/
structure Mesh where
  positions : List (ℚ × ℚ × ℚ)
  normals : List (ℚ × ℚ × ℚ)
  colors : List (ℚ × ℚ × ℚ × ℚ)
  uvs : List (ℚ × ℚ)
  indices : List ℕ
deriving DecidableEq, Repr

/-- The loop accumulator of both meshers: the growing attribute vectors
plus the running base-vertex counter `i`. -/
structure MeshAcc where
  positions : List (ℚ × ℚ × ℚ)
  normals : List (ℚ × ℚ × ℚ)
  colors : List (ℚ × ℚ × ℚ × ℚ)
  uvs : List (ℚ × ℚ)
  indices : List ℕ
  i : ℕ
deriving DecidableEq, Repr

/-- One face iteration of the inner loop of `Chunk::to_mesh` at solid cell
`(x, y, z)`: emit the quad when the face-adjacent neighbor is `Air`. -/
def toMeshFace (c : Chunk) (x y z : Fin 32) (acc : MeshAcc)
    (f : (ℤ × ℤ × ℤ) × (ℚ × ℚ × ℚ) × FaceKind) : MeshAcc :=
  let d := f.1
  let normal := f.2.1
  let face_type := f.2.2
  let neighbor := c.neighborVoxel ((x : ℤ) + d.1) ((y : ℤ) + d.2.1) ((z : ℤ) + d.2.2)
  if neighbor = Voxel.Air then
    let base : ℚ × ℚ × ℚ :=
      ((x : ℚ) * VOXEL_SIZE_METERS, (y : ℚ) * VOXEL_SIZE_METERS, (z : ℚ) * VOXEL_SIZE_METERS)
    let fm := face_mesh base normal acc.i
    let above := if h : (y : ℕ) + 1 < 32 then c.voxels x ⟨(y : ℕ) + 1, h⟩ z else Voxel.Air
    let t : ℚ := (y : ℚ) / ((CHUNK_SIZE : ℚ) - 1)
    let face_color := faceColor (c.voxels x y z) face_type above t
    { positions := acc.positions ++ fm.1,
      normals := acc.normals ++ fm.2.1,
      colors := acc.colors ++ [face_color, face_color, face_color, face_color],
      uvs := acc.uvs ++ [(0, 0), (1, 0), (1, 1), (0, 1)],
      indices := acc.indices ++ fm.2.2,
      i := acc.i + 4 }
  else acc

/-- One cell iteration of `Chunk::to_mesh`: only cells holding the legacy
`Voxel::Solid` kind emit faces (`if self.voxels[x][y][z] == Voxel::Solid`). -/
def toMeshCell (c : Chunk) (acc : MeshAcc) (cell : Fin 32 × Fin 32 × Fin 32) : MeshAcc :=
  if c.voxels cell.1 cell.2.1 cell.2.2 = Voxel.Solid then
    faceDirs.foldl (toMeshFace c cell.1 cell.2.1 cell.2.2) acc
  else acc

/-- The cell traversal order of `Chunk::to_mesh`: `x` outermost, then `y`,
then `z`. -/
def cellList : List (Fin 32 × Fin 32 × Fin 32) :=
  (List.finRange 32).flatMap fun x =>
    (List.finRange 32).flatMap fun y =>
      (List.finRange 32).map fun z => (x, y, z)

/-- Function `Chunk::to_mesh` from terrain.rs.  The source's dedicated empty-mesh
branch (guarding against a Bevy panic) and its general branch both reduce
to the same attribute record here; the branch is kept to mirror the
control flow. -/
def Chunk.to_mesh (c : Chunk) : Mesh :=
  let acc := cellList.foldl (toMeshCell c) ⟨[], [], [], [], [], 0⟩
  if acc.positions.isEmpty then
    { positions := [], normals := [], colors := [], uvs := [], indices := [] }
  else
    { positions := acc.positions, normals := acc.normals, colors := acc.colors,
      uvs := acc.uvs, indices := acc.indices }

/-- The topmost-solid search of `Chunk::to_lod_mesh` for one `(x, z)`
column: scan `y` from 31 down, stop at the first `Voxel::Solid`. -/
def topSolidY (c : Chunk) (x z : Fin 32) : Option (Fin 32) :=
  (List.finRange 32).reverse.find? fun y => c.voxels x y z = Voxel.Solid

/-- One column iteration of `Chunk::to_lod_mesh`: a single upward-facing
green quad at the column's topmost solid voxel, if any. -/
def toLodCell (c : Chunk) (acc : MeshAcc) (xz : Fin 32 × Fin 32) : MeshAcc :=
  match topSolidY c xz.1 xz.2 with
  | none => acc
  | some y =>
    let base : ℚ × ℚ × ℚ :=
      ((xz.1 : ℚ) * VOXEL_SIZE_METERS, (y : ℚ) * VOXEL_SIZE_METERS,
        (xz.2 : ℚ) * VOXEL_SIZE_METERS)
    let fm := face_mesh base (0, 1, 0) acc.i
    let green : ℚ × ℚ × ℚ × ℚ := (2/10, 8/10, 2/10, 1)
    { positions := acc.positions ++ fm.1,
      normals := acc.normals ++ fm.2.1,
      colors := acc.colors ++ [green, green, green, green],
      uvs := acc.uvs ++ [(0, 0), (1, 0), (1, 1), (0, 1)],
      indices := acc.indices ++ fm.2.2,
      i := acc.i + 4 }

/-- The column traversal order of `Chunk::to_lod_mesh`: `x` outer, `z`
inner. -/
def colList : List (Fin 32 × Fin 32) :=
  (List.finRange 32).flatMap fun x =>
    (List.finRange 32).map fun z => (x, z)

/-- Function `Chunk::to_lod_mesh` from terrain.rs. -/
def Chunk.to_lod_mesh (c : Chunk) : Mesh :=
  let acc := colList.foldl (toLodCell c) ⟨[], [], [], [], [], 0⟩
  if acc.positions.isEmpty then
    { positions := [], normals := [], colors := [], uvs := [], indices := [] }
  else
    { positions := acc.positions, normals := acc.normals, colors := acc.colors,
      uvs := acc.uvs, indices := acc.indices }

/-! ## Chunk store, LOD state machine and streaming
(`chunk.rs`, `chunk_loading.rs`) -/

/-- The `ManagedChunk` struct from chunk.rs.  `lod_mesh: Option<Handle<Mesh>>`
is modelled by the mesh the handle refers to; `entity: Option<Entity>` by
an abstract identifier. -/
structure ManagedChunk where
  pos : ℤ × ℤ × ℤ
  state : ChunkState
  chunk : Option Chunk
  lod_mesh : Option Mesh
  entity : Option ℕ

/-- The `ChunkManager` struct from chunk.rs.  The `HashMap` is modelled as
an association list (keys kept unique by the insert operation below). -/
structure ChunkManager where
  loaded_chunks : List ((ℤ × ℤ × ℤ) × ManagedChunk)
  radius : ℤ

/-- Operation `HashMap::contains_key` on the modelled store. -/
def containsKey (s : List ((ℤ × ℤ × ℤ) × ManagedChunk)) (k : ℤ × ℤ × ℤ) : Bool :=
  s.any fun e => e.1 = k

/-- Operation `HashMap::insert` on the modelled store: overwrite the existing entry
for the key, or append a new one. -/
def insertEntry (s : List ((ℤ × ℤ × ℤ) × ManagedChunk)) (k : ℤ × ℤ × ℤ)
    (v : ManagedChunk) : List ((ℤ × ℤ × ℤ) × ManagedChunk) :=
  if containsKey s k then s.map fun e => if e.1 = k then (k, v) else e
  else s ++ [(k, v)]

/-- Constructor `ChunkManager::new` from chunk.rs. -/
def ChunkManager.new (radius : ℤ) : ChunkManager :=
  { loaded_chunks := [], radius := radius }

/-- The integer range `a..=b` of the Rust `for` loops. -/
def intRange (a b : ℤ) : List ℤ :=
  (List.range (b - a + 1).toNat).map fun n : ℕ => a + (n : ℤ)

/-- Function `ChunkManager::load_chunks_around` from chunk.rs (the bulk initial
population, also used verbatim by the background task of
`plugins/world.rs`): every missing coordinate in the cubic radius is
generated and inserted in the `Active` state with its grid present and no
LOD mesh. -/
def ChunkManager.load_chunks_around (m : ChunkManager) (center : ℤ × ℤ × ℤ)
    (w : WorldGen) : ChunkManager :=
  let r := m.radius
  let positions :=
    (intRange (-r) r).flatMap fun dx =>
      (intRange (-r) r).flatMap fun dy =>
        (intRange (-r) r).map fun dz =>
          (center.1 + dx, center.2.1 + dy, center.2.2 + dz)
  { m with
    loaded_chunks :=
      positions.foldl
        (fun s pos =>
          if containsKey s pos then s
          else
            insertEntry s pos
              { pos := pos, state := ChunkState.Active,
                chunk := some (Chunk.from_worldgen w pos),
                lod_mesh := none, entity := none })
        m.loaded_chunks }

/-- The per-chunk body of `update_chunk_lod_system` from chunk.rs, applied
to one `ManagedChunk` at normalized camera distance `d` (the source
computes `d` as `camera_pos.distance(chunk_center) / (CHUNK_SIZE *
VOXEL_SIZE_METERS)` in `f32`; the embedding takes `d` as the rational
input of the threshold comparisons).  `w` stands for the
`WorldGen::new(3, CHUNK_SIZE, 42)` generator the source builds inline. -/
def updateChunkLod (w : WorldGen) (d : ℚ) (mc : ManagedChunk) : ManagedChunk :=
  if d ≤ ACTIVE_RADIUS then
    if mc.state ≠ ChunkState.Active then
      if mc.state = ChunkState.LOD then
        { mc with
          chunk := some (Chunk.from_worldgen w mc.pos),
          lod_mesh := none,
          state := ChunkState.Active }
      else
        { mc with state := ChunkState.Active }
    else mc
  else if d ≤ LOD_RADIUS then
    if mc.state ≠ ChunkState.LOD then
      if mc.state = ChunkState.Active then
        match mc.chunk with
        | some c =>
            { mc with
              lod_mesh := some c.to_lod_mesh,
              chunk := none,
              state := ChunkState.LOD }
        | none => { mc with state := ChunkState.LOD }
      else
        { mc with
          lod_mesh := some (Chunk.from_worldgen w mc.pos).to_lod_mesh,
          state := ChunkState.LOD }
    else mc
  else if d ≤ UNLOAD_RADIUS then
    if mc.state ≠ ChunkState.Unloaded then
      { mc with chunk := none, lod_mesh := none, state := ChunkState.Unloaded }
    else mc
  else mc

/-- The squared chunk-space distance `dx*dx + dy*dy + dz*dz` used by
`manage_chunk_loading` (the source compares its `f32` square root against
the radii; see the header note for the exact integer translation). -/
def sqDist (p cam : ℤ × ℤ × ℤ) : ℤ :=
  (p.1 - cam.1) * (p.1 - cam.1) + (p.2.1 - cam.2.1) * (p.2.1 - cam.2.1) +
    (p.2.2 - cam.2.2) * (p.2.2 - cam.2.2)

/-- The look-direction quantization of `manage_chunk_loading`:
`if look_dir.x > 0.3 { 1 } else if look_dir.x < -0.3 { -1 } else { 0 }`. -/
def lookDelta (v : ℚ) : ℤ :=
  if 3/10 < v then 1 else if v < -(3/10) then -1 else 0

/-- The priority list of `manage_chunk_loading`: coordinates swept along
the look direction (`d` outermost, then `dy`, then the sideways `offset`,
pushing the left then the right candidate when missing from the store).
Rust's truncating `i64` division `r/2` is `Int.tdiv`. -/
def priorityChunks (s : List ((ℤ × ℤ × ℤ) × ManagedChunk)) (cam : ℤ × ℤ × ℤ)
    (ldx ldz r : ℤ) : List (ℤ × ℤ × ℤ) :=
  (intRange 1 r).flatMap fun d =>
    (intRange (Int.tdiv (-r) 2) (Int.tdiv r 2)).flatMap fun dy =>
      (intRange 0 2).flatMap fun offset =>
        let left_pos :=
          (cam.1 + ldx * d - ldz * offset, cam.2.1 + dy, cam.2.2 + ldz * d + ldx * offset)
        let right_pos :=
          (cam.1 + ldx * d + ldz * offset, cam.2.1 + dy, cam.2.2 + ldz * d - ldx * offset)
        (if ¬ containsKey s left_pos then [left_pos] else []) ++
        (if ¬ containsKey s right_pos then [right_pos] else [])

/-- The remaining in-range missing coordinates of `manage_chunk_loading`
(skipping entries already in the priority list or the store, and keeping
only squared distance `≤ r²`, the integer form of `dist <= r as f32`). -/
def chunksToLoad (s : List ((ℤ × ℤ × ℤ) × ManagedChunk)) (cam : ℤ × ℤ × ℤ)
    (priority : List (ℤ × ℤ × ℤ)) (r : ℤ) : List (ℤ × ℤ × ℤ) :=
  (intRange (-r) r).flatMap fun dx =>
    (intRange (Int.tdiv (-r) 2) (Int.tdiv r 2)).flatMap fun dy =>
      (intRange (-r) r).flatMap fun dz =>
        let pos := (cam.1 + dx, cam.2.1 + dy, cam.2.2 + dz)
        if priority.contains pos ∨ containsKey s pos then []
        else if dx * dx + dy * dy + dz * dz ≤ r * r then [pos] else []

/-- The `ManagedChunk` inserted by both generation loops of
`manage_chunk_loading` for a freshly generated coordinate: the initial
LOD state is decided directly from the distance (`≤ 2.5` ⇒ `Active` with
the grid, `≤ 5.0` ⇒ `LOD` — the source computes `chunk_data.to_lod_mesh()`
but discards it and stores `lod_mesh: None` — else `Unloaded`). -/
def streamedChunk (w : WorldGen) (cam : ℤ × ℤ × ℤ) (pos : ℤ × ℤ × ℤ) : ManagedChunk :=
  let chunk_data := Chunk.from_worldgen w pos
  let n := sqDist pos cam
  if n ≤ 6 then
    { pos := pos, state := ChunkState.Active, chunk := some chunk_data,
      lod_mesh := none, entity := none }
  else if n ≤ 25 then
    { pos := pos, state := ChunkState.LOD, chunk := none,
      lod_mesh := none, entity := none }
  else
    { pos := pos, state := ChunkState.Unloaded, chunk := none,
      lod_mesh := none, entity := none }

/-- One budgeted generation loop of `manage_chunk_loading` (`for pos in
list { if chunks_loaded >= max_chunks_per_frame { break; } ... }`),
threading the store, the `chunks_loaded` counter and — as instrumentation —
the list of coordinates actually generated. -/
def loadLoop (w : WorldGen) (cam : ℤ × ℤ × ℤ) :
    List (ℤ × ℤ × ℤ) →
    List ((ℤ × ℤ × ℤ) × ManagedChunk) × ℕ × List (ℤ × ℤ × ℤ) →
    List ((ℤ × ℤ × ℤ) × ManagedChunk) × ℕ × List (ℤ × ℤ × ℤ)
  | [], acc => acc
  | pos :: rest, (s, chunks_loaded, gen) =>
    if 5 ≤ chunks_loaded then (s, chunks_loaded, gen)
    else
      loadLoop w cam rest
        (insertEntry s pos (streamedChunk w cam pos), chunks_loaded + 1, gen ++ [pos])

/-- Function `manage_chunk_loading` from chunk_loading.rs, for observer chunk
coordinate `cam` (the source floors the camera world position; the claims
quantify over the resulting chunk coordinate) and camera look direction
`look` (of which only the quantized x/z deltas are used).  `w` stands for
the `WorldGen::new(3, CHUNK_SIZE, 42)` generator the source builds at the
top of the function.  Returns the updated store together with the list of
coordinates generated this tick. -/
def manage_chunk_loading (w : WorldGen) (m : ChunkManager) (cam : ℤ × ℤ × ℤ)
    (look : ℚ × ℚ × ℚ) : ChunkManager × List (ℤ × ℤ × ℤ) :=
  let look_chunk_delta_x := lookDelta look.1
  let look_chunk_delta_z := lookDelta look.2.2
  let r := m.radius
  -- eviction: remove every entry with distance > UNLOAD_RADIUS (n > 64)
  let evicted := m.loaded_chunks.filter fun e => sqDist e.1 cam ≤ 64
  let priority_chunks := priorityChunks evicted cam look_chunk_delta_x look_chunk_delta_z r
  let chunks_to_load := chunksToLoad evicted cam priority_chunks r
  let step1 := loadLoop w cam priority_chunks (evicted, 0, [])
  let step2 := loadLoop w cam chunks_to_load step1
  ({ loaded_chunks := step2.1, radius := m.radius }, step2.2.2)

/-! ## Helper lemmas -/

/-- The empty mesh record produced for meshless chunks. -/
def emptyMesh : Mesh :=
  { positions := [], normals := [], colors := [], uvs := [], indices := [] }

lemma toMeshCell_of_ne_solid (c : Chunk) (acc : MeshAcc)
    (cell : Fin 32 × Fin 32 × Fin 32)
    (h : c.voxels cell.1 cell.2.1 cell.2.2 ≠ Voxel.Solid) :
    toMeshCell c acc cell = acc := by
  unfold toMeshCell
  exact if_neg h

lemma foldl_toMeshCell_of_no_solid (c : Chunk)
    (h : ∀ x y z, c.voxels x y z ≠ Voxel.Solid) :
    ∀ (l : List (Fin 32 × Fin 32 × Fin 32)) (acc : MeshAcc),
      l.foldl (toMeshCell c) acc = acc := by
  intro l
  induction l with
  | nil => intro acc; rfl
  | cons cell rest ih =>
    intro acc
    rw [List.foldl_cons, toMeshCell_of_ne_solid c acc cell (h _ _ _), ih]

/-- A chunk without any `Voxel::Solid` cell meshes to the empty mesh. -/
lemma to_mesh_of_no_solid (c : Chunk)
    (h : ∀ x y z, c.voxels x y z ≠ Voxel.Solid) :
    c.to_mesh = emptyMesh := by
  unfold Chunk.to_mesh
  rw [foldl_toMeshCell_of_no_solid c h]
  rfl

lemma worldgenVoxel_underwater (w : WorldGen) (pos : ℤ × ℤ × ℤ) (x y z : ℕ)
    (h : worldCoord pos.2.1 y < 0) :
    worldgenVoxel w pos x y z =
      (if ((worldCoord pos.2.1 y : ℤ) : ℚ) <
          w.get_height ((worldCoord pos.1 x : ℤ) : ℚ) ((worldCoord pos.2.2 z : ℤ) : ℚ)
       then Voxel.Solid else Voxel.Air) := by
  have h' : ((worldCoord pos.2.1 y : ℤ) : ℚ) < 0 := by exact_mod_cast h
  simp only [worldgenVoxel]
  rw [if_pos h']

lemma worldgenVoxel_above_water (w : WorldGen) (pos : ℤ × ℤ × ℤ) (x y z : ℕ)
    (h : 0 ≤ worldCoord pos.2.1 y) :
    worldgenVoxel w pos x y z =
      (if 0 < w.get_density ((worldCoord pos.1 x : ℤ) : ℚ) ((worldCoord pos.2.1 y : ℤ) : ℚ)
            ((worldCoord pos.2.2 z : ℤ) : ℚ)
            (w.get_height ((worldCoord pos.1 x : ℤ) : ℚ) ((worldCoord pos.2.2 z : ℤ) : ℚ))
       then biomeVoxel (w.get_biome ((worldCoord pos.1 x : ℤ) : ℚ) ((worldCoord pos.2.2 z : ℤ) : ℚ))
       else Voxel.Air) := by
  have h' : ¬ ((worldCoord pos.2.1 y : ℤ) : ℚ) < 0 := by
    rw [not_lt]
    exact_mod_cast h
  simp only [worldgenVoxel]
  rw [if_neg h']

lemma from_worldgen_voxels (w : WorldGen) (pos : ℤ × ℤ × ℤ) (x y z : Fin 32) :
    (Chunk.from_worldgen w pos).voxels x y z = worldgenVoxel w pos x y z := rfl

lemma classifyBiome_cases (temp rain : ℚ) :
    WorldGen.classifyBiome temp rain = 0 ∨ WorldGen.classifyBiome temp rain = 1 ∨
      WorldGen.classifyBiome temp rain = 2 ∨ WorldGen.classifyBiome temp rain = 3 := by
  unfold WorldGen.classifyBiome
  split_ifs <;> simp

lemma get_biome_cases (w : WorldGen) (x z : ℚ) :
    w.get_biome x z = 0 ∨ w.get_biome x z = 1 ∨ w.get_biome x z = 2 ∨
      w.get_biome x z = 3 := by
  simp only [WorldGen.get_biome]
  exact classifyBiome_cases _ _

lemma loadLoop_gen (w : WorldGen) (cam : ℤ × ℤ × ℤ) :
    ∀ (l : List (ℤ × ℤ × ℤ)) (s : List ((ℤ × ℤ × ℤ) × ManagedChunk)) (c : ℕ)
      (g : List (ℤ × ℤ × ℤ)),
      (loadLoop w cam l (s, c, g)).2.2 = g ++ l.take (5 - c) := by
  intro l
  induction l with
  | nil => intro s c g; simp [loadLoop]
  | cons p rest ih =>
    intro s c g
    by_cases h5 : 5 ≤ c
    · have h0 : 5 - c = 0 := by omega
      simp [loadLoop, if_pos h5, h0]
    · have hc : 5 - c = (5 - (c + 1)) + 1 := by omega
      simp only [loadLoop, if_neg h5]
      rw [ih, hc, List.take_succ_cons, List.append_assoc, List.singleton_append]

lemma loadLoop_count (w : WorldGen) (cam : ℤ × ℤ × ℤ) :
    ∀ (l : List (ℤ × ℤ × ℤ)) (s : List ((ℤ × ℤ × ℤ) × ManagedChunk)) (c : ℕ)
      (g : List (ℤ × ℤ × ℤ)), c ≤ 5 →
      (loadLoop w cam l (s, c, g)).2.1 = min 5 (c + l.length) := by
  intro l
  induction l with
  | nil =>
    intro s c g hc
    simp only [loadLoop, List.length_nil, Nat.add_zero]
    rw [Nat.min_def]
    split_ifs <;> omega
  | cons p rest ih =>
    intro s c g hc
    by_cases h5 : 5 ≤ c
    · simp only [loadLoop, if_pos h5, List.length_cons]
      rw [Nat.min_def]
      split_ifs <;> omega
    · simp only [loadLoop, if_neg h5, List.length_cons]
      rw [ih _ _ _ (by omega)]
      congr 1
      omega

lemma mem_intRange {a b x : ℤ} : x ∈ intRange a b ↔ a ≤ x ∧ x ≤ b := by
  constructor
  · intro hx
    unfold intRange at hx
    obtain ⟨n, hn, he⟩ := List.mem_map.mp hx
    rw [List.mem_range] at hn
    omega
  · rintro ⟨h1, h2⟩
    unfold intRange
    exact List.mem_map.mpr
      ⟨(x - a).toNat, List.mem_range.mpr (by omega), by omega⟩

lemma mem_ite_nil_elim {α : Type} {c : Prop} [Decidable c] {l : List α} {p : α}
    (h : p ∈ if c then l else []) : c ∧ p ∈ l := by
  split_ifs at h with hc
  · exact ⟨hc, h⟩
  · exact absurd h (List.not_mem_nil p)

lemma mem_ite_nil_left_elim {α : Type} {c : Prop} [Decidable c] {l : List α} {p : α}
    (h : p ∈ if c then ([] : List α) else l) : p ∈ l := by
  split_ifs at h with hc
  · exact absurd h (List.not_mem_nil p)
  · exact h

lemma lookDelta_bounds (v : ℚ) : -1 ≤ lookDelta v ∧ lookDelta v ≤ 1 := by
  unfold lookDelta
  split_ifs <;> omega

lemma mem_insertEntry {s : List ((ℤ × ℤ × ℤ) × ManagedChunk)} {k : ℤ × ℤ × ℤ}
    {v : ManagedChunk} {e : (ℤ × ℤ × ℤ) × ManagedChunk}
    (he : e ∈ insertEntry s k v) : e ∈ s ∨ e = (k, v) := by
  unfold insertEntry at he
  split_ifs at he with h
  · rcases List.mem_map.mp he with ⟨a, ha, hfa⟩
    by_cases hak : a.1 = k
    · rw [if_pos hak] at hfa
      right
      exact hfa.symm
    · rw [if_neg hak] at hfa
      left
      exact hfa ▸ ha
  · rcases List.mem_append.mp he with h1 | h2
    · exact Or.inl h1
    · exact Or.inr (List.mem_singleton.mp h2)

lemma loadLoop_store_mem (w : WorldGen) (cam : ℤ × ℤ × ℤ) :
    ∀ (l : List (ℤ × ℤ × ℤ)) (s : List ((ℤ × ℤ × ℤ) × ManagedChunk)) (c : ℕ)
      (g : List (ℤ × ℤ × ℤ)) (e : (ℤ × ℤ × ℤ) × ManagedChunk),
      e ∈ (loadLoop w cam l (s, c, g)).1 → e ∈ s ∨ e.1 ∈ l := by
  intro l
  induction l with
  | nil =>
    intro s c g e he
    exact Or.inl he
  | cons p rest ih =>
    intro s c g e he
    by_cases h5 : 5 ≤ c
    · simp only [loadLoop, if_pos h5] at he
      exact Or.inl he
    · simp only [loadLoop, if_neg h5] at he
      rcases ih _ _ _ _ he with hin | hl
      · rcases mem_insertEntry hin with hs | hkv
        · exact Or.inl hs
        · right
          rw [hkv]
          exact List.mem_cons_self _ _
      · exact Or.inr (List.mem_cons_of_mem _ hl)

lemma quad_bound (a b d dy off : ℤ) (ha1 : -1 ≤ a) (ha2 : a ≤ 1)
    (hb1 : -1 ≤ b) (hb2 : b ≤ 1) (hd1 : 1 ≤ d) (hd2 : d ≤ 5)
    (hoff1 : 0 ≤ off) (hoff2 : off ≤ 2) (hdy1 : -2 ≤ dy) (hdy2 : dy ≤ 2) :
    (a * d - b * off) * (a * d - b * off) + dy * dy +
      (b * d + a * off) * (b * d + a * off) ≤ 64 := by
  have key : (a * d - b * off) * (a * d - b * off) +
      (b * d + a * off) * (b * d + a * off) = (a * a + b * b) * (d * d + off * off) := by
    ring
  have haa : a * a ≤ 1 := by nlinarith
  have hbb : b * b ≤ 1 := by nlinarith
  have hdd : d * d ≤ 25 := by nlinarith
  have hoo : off * off ≤ 4 := by nlinarith
  have hyy : dy * dy ≤ 4 := by nlinarith
  have h1 : a * a + b * b ≤ 2 := by linarith
  have h2 : d * d + off * off ≤ 29 := by linarith
  have h4 : (0 : ℤ) ≤ d * d + off * off := by positivity
  have h5 : (a * a + b * b) * (d * d + off * off) ≤ 2 * 29 := by
    calc (a * a + b * b) * (d * d + off * off)
        ≤ 2 * (d * d + off * off) := by
          exact mul_le_mul_of_nonneg_right h1 h4
      _ ≤ 2 * 29 := by linarith
  linarith

lemma priority_mem_sqDist {s : List ((ℤ × ℤ × ℤ) × ManagedChunk)}
    {cam : ℤ × ℤ × ℤ} {ldx ldz r : ℤ} {p : ℤ × ℤ × ℤ} (hr : r ≤ 5)
    (hx1 : -1 ≤ ldx) (hx2 : ldx ≤ 1) (hz1 : -1 ≤ ldz) (hz2 : ldz ≤ 1)
    (hp : p ∈ priorityChunks s cam ldx ldz r) : sqDist p cam ≤ 64 := by
  unfold priorityChunks at hp
  simp only [List.mem_flatMap, mem_intRange] at hp
  obtain ⟨d, ⟨hd1, hd2⟩, dy, ⟨hdy1, hdy2⟩, off, ⟨hoff1, hoff2⟩, hp⟩ := hp
  have hr1 : 1 ≤ r := le_trans hd1 hd2
  have hdyb : -2 ≤ dy ∧ dy ≤ 2 := by
    have htd : Int.tdiv (-r) 2 = -Int.tdiv r 2 := by
      rw [Int.neg_tdiv]
    have hrb : Int.tdiv r 2 ≤ 2 := by
      interval_cases r <;> decide
    rw [htd] at hdy1
    omega
  have hd5 : d ≤ 5 := le_trans hd2 hr
  rcases List.mem_append.mp hp with hl | hrt
  · have hpl : p = (cam.1 + ldx * d - ldz * off, cam.2.1 + dy, cam.2.2 + ldz * d + ldx * off) :=
      List.mem_singleton.mp (mem_ite_nil_elim hl).2
    rw [hpl]
    have hb := quad_bound ldx ldz d dy off hx1 hx2 hz1 hz2 hd1 hd5 hoff1 hoff2
      hdyb.1 hdyb.2
    unfold sqDist
    dsimp only
    calc (cam.1 + ldx * d - ldz * off - cam.1) * (cam.1 + ldx * d - ldz * off - cam.1) +
          (cam.2.1 + dy - cam.2.1) * (cam.2.1 + dy - cam.2.1) +
          (cam.2.2 + ldz * d + ldx * off - cam.2.2) * (cam.2.2 + ldz * d + ldx * off - cam.2.2)
        = (ldx * d - ldz * off) * (ldx * d - ldz * off) + dy * dy +
            (ldz * d + ldx * off) * (ldz * d + ldx * off) := by ring
      _ ≤ 64 := hb
  · have hpr : p = (cam.1 + ldx * d + ldz * off, cam.2.1 + dy, cam.2.2 + ldz * d - ldx * off) :=
      List.mem_singleton.mp (mem_ite_nil_elim hrt).2
    rw [hpr]
    have hb := quad_bound ldx (-ldz) d dy off hx1 hx2 (by omega) (by omega) hd1 hd5
      hoff1 hoff2 hdyb.1 hdyb.2
    unfold sqDist
    dsimp only
    calc (cam.1 + ldx * d + ldz * off - cam.1) * (cam.1 + ldx * d + ldz * off - cam.1) +
          (cam.2.1 + dy - cam.2.1) * (cam.2.1 + dy - cam.2.1) +
          (cam.2.2 + ldz * d - ldx * off - cam.2.2) * (cam.2.2 + ldz * d - ldx * off - cam.2.2)
        = (ldx * d - -ldz * off) * (ldx * d - -ldz * off) + dy * dy +
            (-ldz * d + ldx * off) * (-ldz * d + ldx * off) := by ring
      _ ≤ 64 := hb

lemma chunksToLoad_mem_sqDist {s : List ((ℤ × ℤ × ℤ) × ManagedChunk)}
    {cam : ℤ × ℤ × ℤ} {priority : List (ℤ × ℤ × ℤ)} {r : ℤ} {p : ℤ × ℤ × ℤ}
    (hr : r ≤ 5) (hp : p ∈ chunksToLoad s cam priority r) : sqDist p cam ≤ 64 := by
  unfold chunksToLoad at hp
  simp only [List.mem_flatMap, mem_intRange] at hp
  obtain ⟨dx, ⟨hdx1, hdx2⟩, dy, ⟨hdy1, hdy2⟩, dz, ⟨hdz1, hdz2⟩, hp⟩ := hp
  obtain ⟨h2, hp⟩ := mem_ite_nil_elim (mem_ite_nil_left_elim hp)
  rw [List.mem_singleton] at hp
  subst hp
  have h0 : 0 ≤ r := by omega
  have hr2 : r * r ≤ 25 := by nlinarith
  unfold sqDist
  dsimp only
  calc (cam.1 + dx - cam.1) * (cam.1 + dx - cam.1) +
        (cam.2.1 + dy - cam.2.1) * (cam.2.1 + dy - cam.2.1) +
        (cam.2.2 + dz - cam.2.2) * (cam.2.2 + dz - cam.2.2)
      = dx * dx + dy * dy + dz * dz := by ring
    _ ≤ r * r := h2
    _ ≤ 25 := hr2
    _ ≤ 64 := by omega

/-! ## Claim theorems -/

/-- C8: mesh extraction is total and an all-air chunk yields a well-formed
empty mesh: `to_mesh` on `new_filled(Air)` returns the mesh whose
position, normal, color, UV and index arrays are all present and empty. -/
theorem all_air_mesh_empty :
    (Chunk.new_filled Voxel.Air).to_mesh = emptyMesh := by
  apply to_mesh_of_no_solid
  intro x y z
  exact fun hc => Voxel.noConfusion hc

/-- A chunk whose only non-air voxel is a `Forest` voxel at `(0,0,0)`
(a solid terrain material all of whose 6 face-adjacent neighbors are
non-solid). -/
def forestChunk : Chunk :=
  { voxels := fun x y z => if x = 0 ∧ y = 0 ∧ z = 0 then Voxel.Forest else Voxel.Air,
    lod_state := ChunkState.Active }

/-- C4: evaluation at the failing input.  `forestChunk` contains a solid
voxel (`Forest`) whose neighbors are all `Air`, so the claim demands a
mesh with vertex count `> 0`; but `Chunk::to_mesh` only emits faces for
the legacy `Voxel::Solid` kind, so the produced mesh is empty (its own
per-material color arms for `Forest`, `Stone`, … are unreachable). -/
theorem forest_voxel_mesh_empty :
    forestChunk.voxels 0 0 0 = Voxel.Forest ∧
    forestChunk.to_mesh.positions = [] ∧
    forestChunk.to_mesh.indices = [] := by
  refine ⟨rfl, ?_, ?_⟩ <;>
  · rw [to_mesh_of_no_solid]
    · rfl
    · intro x y z
      unfold forestChunk
      dsimp only
      split <;> exact fun hc => Voxel.noConfusion hc

/-- C5: chunk generation is deterministic and idempotent — two runs of
`Chunk::from_worldgen` on the same generator (same seed and noise
configuration) and the same chunk coordinate produce identical voxel
grids.  In the embedding generation is a pure function of the generator
and the coordinate, so equal inputs give bitwise-equal grids. -/
theorem from_worldgen_deterministic (w₁ w₂ : WorldGen) (pos : ℤ × ℤ × ℤ)
    (h : w₁ = w₂) :
    (Chunk.from_worldgen w₁ pos).voxels = (Chunk.from_worldgen w₂ pos).voxels := by
  rw [h]

/-- C5 witness: the two-run equality at the concrete generator and the
scenario coordinate `(0,0,0)`. -/
theorem from_worldgen_deterministic_witness :
    zeroWG = zeroWG ∧
    (Chunk.from_worldgen zeroWG (0, 0, 0)).voxels =
      (Chunk.from_worldgen zeroWG (0, 0, 0)).voxels :=
  ⟨rfl, from_worldgen_deterministic zeroWG zeroWG (0, 0, 0) rfl⟩

/-- C1: evaluation at the failing input.  The per-tick streaming insertion
(`manage_chunk_loading`) of a missing coordinate at squared chunk distance
9 — i.e. distance 3, inside `(ACTIVE_RADIUS, LOD_RADIUS]` — creates a
store entry with `state = LOD` whose LOD mesh (and grid) are absent: the
source computes the LOD mesh but discards it, storing `lod_mesh: None`
with a comment deferring to a system that never sets it.  This violates
the invariant direction `state == LOD ⇒ LOD mesh present`. -/
theorem stream_insert_lod_without_mesh :
    (streamedChunk zeroWG (0, 0, 0) (3, 0, 0)).state = ChunkState.LOD ∧
    (streamedChunk zeroWG (0, 0, 0) (3, 0, 0)).lod_mesh = none ∧
    (streamedChunk zeroWG (0, 0, 0) (3, 0, 0)).chunk = none := by
  refine ⟨rfl, rfl, rfl⟩

/-- C2: evaluation at the failing input.  One evaluation of the LOD
transition (`update_chunk_lod_system` body) on a previously `Unloaded`
chunk at normalized distance `0 ≤ ACTIVE_RADIUS` sets the state to
`Active` but does not regenerate the voxel grid (regeneration only
happens on the `LOD → Active` path), leaving an `Active` chunk with no
grid — contradicting the claim that the grid is regenerated and present. -/
theorem unloaded_to_active_keeps_grid_absent :
    (updateChunkLod zeroWG 0
        { pos := (3, 0, 0), state := ChunkState.Unloaded, chunk := none,
          lod_mesh := none, entity := none }).state = ChunkState.Active ∧
    (updateChunkLod zeroWG 0
        { pos := (3, 0, 0), state := ChunkState.Unloaded, chunk := none,
          lod_mesh := none, entity := none }).chunk = none := by
  refine ⟨rfl, rfl⟩

/-- C9: for every cell whose world `y` lies below the water level 0,
chunk population bypasses the density function: the cell is the legacy
`Solid` kind exactly when `world_y < surfaceHeight` at its column, and
`Air` otherwise. -/
theorem underwater_heightmap_rule (w : WorldGen) (pos : ℤ × ℤ × ℤ)
    (x y z : Fin 32) (h : worldCoord pos.2.1 (y : ℕ) < 0) :
    (Chunk.from_worldgen w pos).voxels x y z =
      (if ((worldCoord pos.2.1 (y : ℕ) : ℤ) : ℚ) <
          w.get_height ((worldCoord pos.1 (x : ℕ) : ℤ) : ℚ)
            ((worldCoord pos.2.2 (z : ℕ) : ℤ) : ℚ)
       then Voxel.Solid else Voxel.Air) :=
  worldgenVoxel_underwater w pos x y z h

/-- C9 witness: cell `(1,2,3)` of chunk `(0,-1,0)` under the concrete
generator sits at world `y = -30 < 0` below the (height 50) surface, so it
is the legacy `Solid` kind. -/
theorem underwater_heightmap_rule_witness :
    worldCoord (-1) ((2 : Fin 32) : ℕ) < 0 ∧
    (Chunk.from_worldgen zeroWG (0, -1, 0)).voxels 1 2 3 = Voxel.Solid :=
  ⟨by decide,
    (underwater_heightmap_rule zeroWG (0, -1, 0) 1 2 3 (by decide)).trans (by decide)⟩

/-- C3 counterexample: at cell `(0,0,0)` of chunk `(0,-1,0)` (world
position `(0,-32,0)`, below the water level), the density at the cell's
world position is positive and the column biome maps to the `Desert`
material, yet the populated voxel is the legacy `Solid` kind — not the
biome-derived material the claim requires whenever density > 0. -/
theorem underwater_cell_breaks_density_rule :
    (Chunk.from_worldgen zeroWG (0, -1, 0)).voxels 0 0 0 = Voxel.Solid ∧
    0 < zeroWG.get_density ((worldCoord 0 0 : ℤ) : ℚ) ((worldCoord (-1) 0 : ℤ) : ℚ)
        ((worldCoord 0 0 : ℤ) : ℚ)
        (zeroWG.get_height ((worldCoord 0 0 : ℤ) : ℚ) ((worldCoord 0 0 : ℤ) : ℚ)) ∧
    (Chunk.from_worldgen zeroWG (0, -1, 0)).voxels 0 0 0 ≠
      (if 0 < zeroWG.get_density ((worldCoord 0 0 : ℤ) : ℚ) ((worldCoord (-1) 0 : ℤ) : ℚ)
            ((worldCoord 0 0 : ℤ) : ℚ)
            (zeroWG.get_height ((worldCoord 0 0 : ℤ) : ℚ) ((worldCoord 0 0 : ℤ) : ℚ))
       then biomeVoxel
              (zeroWG.get_biome ((worldCoord 0 0 : ℤ) : ℚ) ((worldCoord 0 0 : ℤ) : ℚ))
       else Voxel.Air) :=
  ⟨by decide, by decide, by decide⟩

/-- C3 (amended): for every generator, chunk coordinate and cell whose
world `y` is at or above the water level 0, the populated voxel is the
biome-derived material exactly when the density at the cell's world
position (with surface height and biome computed from the cell's `(x,z)`
column) is positive, and `Air` otherwise; cells below the water level
instead follow the legacy underwater rule of C9. -/
theorem above_water_density_rule (w : WorldGen) (pos : ℤ × ℤ × ℤ)
    (x y z : Fin 32) (h : 0 ≤ worldCoord pos.2.1 (y : ℕ)) :
    (Chunk.from_worldgen w pos).voxels x y z =
      (if 0 < w.get_density ((worldCoord pos.1 (x : ℕ) : ℤ) : ℚ)
            ((worldCoord pos.2.1 (y : ℕ) : ℤ) : ℚ)
            ((worldCoord pos.2.2 (z : ℕ) : ℤ) : ℚ)
            (w.get_height ((worldCoord pos.1 (x : ℕ) : ℤ) : ℚ)
              ((worldCoord pos.2.2 (z : ℕ) : ℤ) : ℚ))
       then biomeVoxel (w.get_biome ((worldCoord pos.1 (x : ℕ) : ℤ) : ℚ)
              ((worldCoord pos.2.2 (z : ℕ) : ℤ) : ℚ))
       else Voxel.Air) :=
  worldgenVoxel_above_water w pos x y z h

/-- C3 witness: cell `(0,0,0)` of chunk `(0,0,0)` sits at world `y = 0 ≥ 0`;
the density there is positive and the biome is 3, so the populated voxel
is the `Desert` material. -/
theorem above_water_density_rule_witness :
    0 ≤ worldCoord 0 ((0 : Fin 32) : ℕ) ∧
    (Chunk.from_worldgen zeroWG (0, 0, 0)).voxels 0 0 0 = Voxel.Desert :=
  ⟨by decide,
    (above_water_density_rule zeroWG (0, 0, 0) 0 0 0 (by decide)).trans (by decide)⟩

/-- C10: the biome classifier always returns an index in `{0, 1, 2, 3}`,
so the `_ => Voxel::Stone` fallback arm of chunk population is
unreachable and every above-water solid voxel it produces is one of
`Forest`, `Plains`, `Taiga`, `Desert`. -/
theorem biome_range_and_materials :
    (∀ (w : WorldGen) (x z : ℚ),
        w.get_biome x z = 0 ∨ w.get_biome x z = 1 ∨ w.get_biome x z = 2 ∨
          w.get_biome x z = 3) ∧
    (∀ (w : WorldGen) (pos : ℤ × ℤ × ℤ) (x y z : Fin 32),
        0 ≤ worldCoord pos.2.1 (y : ℕ) →
        (Chunk.from_worldgen w pos).voxels x y z ≠ Voxel.Air →
        ((Chunk.from_worldgen w pos).voxels x y z = Voxel.Forest ∨
         (Chunk.from_worldgen w pos).voxels x y z = Voxel.Plains ∨
         (Chunk.from_worldgen w pos).voxels x y z = Voxel.Taiga ∨
         (Chunk.from_worldgen w pos).voxels x y z = Voxel.Desert)) := by
  constructor
  · exact get_biome_cases
  · intro w pos x y z hy hne
    rw [from_worldgen_voxels, worldgenVoxel_above_water w pos x y z hy] at hne ⊢
    split_ifs with hd
    · rcases get_biome_cases w ((worldCoord pos.1 (x : ℕ) : ℤ) : ℚ)
        ((worldCoord pos.2.2 (z : ℕ) : ℤ) : ℚ) with hb | hb | hb | hb <;>
        rw [hb] <;> simp [biomeVoxel]
    · rw [if_neg hd] at hne
      exact absurd rfl hne

/-- C10 witness: the classifier range and the material disjunction at the
concrete generator, chunk `(0,0,0)`, cell `(0,0,0)` (an above-water solid
voxel, which evaluates to `Desert`). -/
theorem biome_range_and_materials_witness :
    (zeroWG.get_biome 0 0 = 0 ∨ zeroWG.get_biome 0 0 = 1 ∨ zeroWG.get_biome 0 0 = 2 ∨
      zeroWG.get_biome 0 0 = 3) ∧
    ((Chunk.from_worldgen zeroWG (0, 0, 0)).voxels 0 0 0 = Voxel.Forest ∨
     (Chunk.from_worldgen zeroWG (0, 0, 0)).voxels 0 0 0 = Voxel.Plains ∨
     (Chunk.from_worldgen zeroWG (0, 0, 0)).voxels 0 0 0 = Voxel.Taiga ∨
     (Chunk.from_worldgen zeroWG (0, 0, 0)).voxels 0 0 0 = Voxel.Desert) :=
  ⟨biome_range_and_materials.1 zeroWG 0 0,
    biome_range_and_materials.2 zeroWG (0, 0, 0) 0 0 0 (by decide) (by decide)⟩

/-- C6: one invocation of the per-tick streaming step generates (and
inserts) at most the per-tick budget of 5 chunks, taking coordinates from
the priority list first and then from the remaining in-range missing
coordinates; whatever is left over is simply not generated this tick.
The generated coordinates are exactly the first 5 of
`priority ++ remaining`. -/
theorem streaming_budget (w : WorldGen) (m : ChunkManager) (cam : ℤ × ℤ × ℤ)
    (look : ℚ × ℚ × ℚ) :
    (manage_chunk_loading w m cam look).2 =
      (priorityChunks (m.loaded_chunks.filter fun e => sqDist e.1 cam ≤ 64) cam
          (lookDelta look.1) (lookDelta look.2.2) m.radius ++
        chunksToLoad (m.loaded_chunks.filter fun e => sqDist e.1 cam ≤ 64) cam
          (priorityChunks (m.loaded_chunks.filter fun e => sqDist e.1 cam ≤ 64) cam
            (lookDelta look.1) (lookDelta look.2.2) m.radius)
          m.radius).take 5 ∧
    (manage_chunk_loading w m cam look).2.length ≤ 5 := by
  set s0 := m.loaded_chunks.filter fun e => sqDist e.1 cam ≤ 64 with hs0
  set pr := priorityChunks s0 cam (lookDelta look.1) (lookDelta look.2.2) m.radius with hpr
  set ld := chunksToLoad s0 cam pr m.radius with hld
  have hmain : (manage_chunk_loading w m cam look).2 =
      (loadLoop w cam ld (loadLoop w cam pr (s0, 0, []))).2.2 := rfl
  have hg1 : (loadLoop w cam pr (s0, 0, [])).2.2 = pr.take 5 := by
    rw [loadLoop_gen]
    simp
  have hc1 : (loadLoop w cam pr (s0, 0, [])).2.1 = min 5 pr.length := by
    rw [loadLoop_count w cam pr s0 0 [] (by omega)]
    simp
  have heta : loadLoop w cam ld (loadLoop w cam pr (s0, 0, [])) =
      loadLoop w cam ld ((loadLoop w cam pr (s0, 0, [])).1,
        (loadLoop w cam pr (s0, 0, [])).2.1, (loadLoop w cam pr (s0, 0, [])).2.2) := rfl
  have hkey : (manage_chunk_loading w m cam look).2 = (pr ++ ld).take 5 := by
    have harg : 5 - min 5 pr.length = 5 - pr.length := by
      rw [Nat.min_def]
      split_ifs <;> omega
    rw [hmain, heta, loadLoop_gen, hg1, hc1, harg, List.take_append_eq_append_take]
  refine ⟨hkey, ?_⟩
  rw [hkey]
  exact List.length_take_le 5 _

/-- C7: after one invocation of the per-tick streaming step (with the
streaming radius at most its configured value 5), no entry of the chunk
store lies at squared chunk distance greater than `UNLOAD_RADIUS² = 64`
from the observer's chunk coordinate: every pre-existing such entry is
evicted, and no insertion of the same invocation creates one. -/
theorem eviction_radius_bound (w : WorldGen) (m : ChunkManager) (cam : ℤ × ℤ × ℤ)
    (look : ℚ × ℚ × ℚ) (hr : m.radius ≤ 5) :
    ∀ e ∈ (manage_chunk_loading w m cam look).1.loaded_chunks,
      sqDist e.1 cam ≤ 64 := by
  intro e he
  set s0 := m.loaded_chunks.filter fun e => sqDist e.1 cam ≤ 64 with hs0
  set pr := priorityChunks s0 cam (lookDelta look.1) (lookDelta look.2.2) m.radius with hpr
  set ld := chunksToLoad s0 cam pr m.radius with hld
  have he' : e ∈ (loadLoop w cam ld (loadLoop w cam pr (s0, 0, []))).1 := he
  have heta : loadLoop w cam ld (loadLoop w cam pr (s0, 0, [])) =
      loadLoop w cam ld ((loadLoop w cam pr (s0, 0, [])).1,
        (loadLoop w cam pr (s0, 0, [])).2.1, (loadLoop w cam pr (s0, 0, [])).2.2) := rfl
  rw [heta] at he'
  rcases loadLoop_store_mem w cam ld _ _ _ e he' with h1 | hld'
  · rcases loadLoop_store_mem w cam pr s0 0 [] e h1 with h0 | hpr'
    · rw [hs0, List.mem_filter] at h0
      exact of_decide_eq_true h0.2
    · exact priority_mem_sqDist hr (lookDelta_bounds look.1).1 (lookDelta_bounds look.1).2
        (lookDelta_bounds look.2.2).1 (lookDelta_bounds look.2.2).2 hpr'
  · exact chunksToLoad_mem_sqDist hr hld'

/-- C7 witness: the bound instantiated on the empty store with the
configured radius 5, the observer at the origin chunk, looking along
`+x`. -/
theorem eviction_radius_bound_witness :
    (ChunkManager.new 5).radius ≤ 5 ∧
    ∀ e ∈ (manage_chunk_loading zeroWG (ChunkManager.new 5) (0, 0, 0)
        (1, 0, 0)).1.loaded_chunks,
      sqDist e.1 (0, 0, 0) ≤ 64 :=
  ⟨by decide,
    eviction_radius_bound zeroWG (ChunkManager.new 5) (0, 0, 0) (1, 0, 0) (by decide)⟩

end VoxelCastle
